import Mathlib

/-!
Formal model of the three screens of the expo-audio sample app
(src/app/gemini.tsx, src/app/index.tsx, src/app/speech.tsx).

Each screen is embedded as pure state-transition functions: React state
becomes a structure, event handlers become functions from state (and the
relevant external outcome, such as the fetch result) to new state plus a
trace of observable effects (alerts shown, network requests issued, calls
into the platform speech engine).
-/

/-- JavaScript String.prototype.trim: the string with leading and trailing
whitespace removed (the screens only ever test the result for emptiness, so
only which characters count as whitespace matters, and the ASCII whitespace
set of Char.isWhitespace covers every character the claims mention). -/
def jsTrim (s : String) : String :=
  String.mk (((s.toList.dropWhile Char.isWhitespace).reverse.dropWhile
    Char.isWhitespace).reverse)

/-- JSON values as produced by response.json. Numeric values are modelled as
integers (no claim depends on fractional numbers). -/
inductive Json where
  | null : Json
  | bool (b : Bool) : Json
  | num (n : Int) : Json
  | str (s : String) : Json
  | arr (items : List Json) : Json
  | obj (fields : List (String × Json)) : Json
deriving Repr

/-- Property access in a position guarded by ?. in the optional chains of
gemini.tsx: an object yields its field when present (with later duplicate
keys overriding earlier ones, as in JSON.parse) and acts as undefined (none)
otherwise. A null receiver yields none because the ?. guard short-circuits
the chain to undefined before the access happens, and other primitive
values carry none of the accessed properties; a guarded access never
throws. -/
def jsGet (j : Json) (key : String) : Option Json :=
  match j with
  | .obj fields => (fields.reverse.find? (fun p => p.1 == key)).map (fun p => p.2)
  | _ => none

/-- The message of the TypeError thrown by property access on null. Its
exact wording is engine-specific, so the model fixes one representative
string per accessed key; the theorems below only ever assert that the alert
carries this thrown message (and, in the counterexample, that it differs
from the APIエラー status message, which holds for the real engine wordings
as well). -/
def typeErrorNullMessage (key : String) : String :=
  "TypeError: cannot read " ++ key ++ " of null"

/-- The unguarded property access at the head of each optional chain
(data.candidates and errorData.error carry no ?. on the first step): on a
null receiver the access throws a TypeError, as in JavaScript; otherwise it
behaves like the guarded access. -/
def jsGetUnguarded (j : Json) (key : String) : Except String (Option Json) :=
  match j with
  | .null => .error (typeErrorNullMessage key)
  | _ => .ok (jsGet j key)

/-- Index access as used by the optional chains; indexing a string yields the
character at that position as a one-character string, as in JavaScript. -/
def jsIdx (j : Json) (i : Nat) : Option Json :=
  match j with
  | .arr items => items[i]?
  | .str s => (s.toList[i]?).map (fun c => Json.str (String.mk [c]))
  | _ => none

/-- JavaScript truthiness of a defined value. -/
def Json.truthy : Json → Bool
  | .null => false
  | .bool b => b
  | .num n => n != 0
  | .str s => s != ""
  | .arr _ => true
  | .obj _ => true

/-- The JavaScript expression a || b, where a is the possibly undefined result
of an optional chain: a when a is defined and truthy, b otherwise. -/
def jsOr (a : Option Json) (b : Json) : Json :=
  match a with
  | some v => if v.truthy then v else b
  | none => b

/-- String conversion applied by new Error to a non-string message. Arrays
join their elements with commas, nested null rendering as the empty string,
as in JavaScript. -/
def Json.jsToString : Json → String
  | .null => "null"
  | .bool b => if b then "true" else "false"
  | .num n => toString n
  | .str s => s
  | .arr items => String.intercalate "," (items.attach.map (fun x =>
      match x with
      | ⟨Json.null, _⟩ => ""
      | ⟨v, h⟩ => v.jsToString))
  | .obj _ => "[object Object]"
decreasing_by
  have hlt := List.sizeOf_lt_of_mem h
  simp only [Json.arr.sizeOf_spec]
  omega

/-- The optional chain data.candidates?.[0]?.content?.parts?.[0]?.text from
handleGenerate in gemini.tsx. The first access is unguarded and throws on a
null body; every later step is ?.-guarded and never throws. -/
def extractCandidatesText (data : Json) : Except String (Option Json) :=
  (jsGetUnguarded data "candidates").map (fun c0 =>
    ((((c0.bind (fun c => jsIdx c 0)).bind
      (fun c => jsGet c "content")).bind
      (fun c => jsGet c "parts")).bind
      (fun p => jsIdx p 0)).bind (fun p => jsGet p "text"))

/-- The chain errorData.error?.message from the non-ok branch of
handleGenerate. The access errorData.error is unguarded and throws on a
null body; the message step is ?.-guarded. -/
def extractErrorMessage (errorData : Json) : Except String (Option Json) :=
  (jsGetUnguarded errorData "error").map (fun e0 =>
    e0.bind (fun e => jsGet e "message"))

/-! ## gemini.tsx -/

def GEMINI_MODEL : String := "gemini-2.5-flash"

def GEMINI_API_URL : String :=
  "https://generativelanguage.googleapis.com/v1beta/models/" ++ GEMINI_MODEL ++ ":generateContent"

/-- A value thrown on, or rejected into, the JavaScript side: either an Error
object carrying a message string, or some non-Error value. -/
inductive JsThrow where
  | errorObj (msg : String) : JsThrow
  | nonError : JsThrow
deriving Repr, DecidableEq

/-- Outcome of the fetch call in handleGenerate: either the promise rejects,
or a response arrives with an ok flag, a status code, and a body whose JSON
parse (response.json) either succeeds or rejects. -/
inductive FetchResult where
  | reject (e : JsThrow) : FetchResult
  | response (ok : Bool) (status : Nat) (body : Except JsThrow Json) : FetchResult
deriving Repr

/-- React state of GeminiScreen. generatedText is a JavaScript value: the
code stores whatever the truthy side of the || produced, which is a string in
every well-formed response but in principle any JSON value. -/
structure GeminiState where
  prompt : String
  apiKey : String
  generatedText : Json
  isGenerating : Bool
  isSpeaking : Bool
deriving Repr

/-- The useState initial values of GeminiScreen. -/
def initialGeminiState : GeminiState :=
  { prompt := "AIについて簡単に説明してください"
    apiKey := ""
    generatedText := Json.str ""
    isGenerating := false
    isSpeaking := false }

def errorAlertTitle : String := "エラー"

def promptRequiredMessage : String := "プロンプトを入力してください"

def apiKeyRequiredMessage : String := "Gemini APIキーを入力してください"

def fallbackGeneratedText : String := "テキストを生成できませんでした"

def unknownErrorMessage : String := "不明なエラーが発生しました"

/-- The template literal APIエラー with the HTTP status code appended. -/
def apiErrorMessage (status : Nat) : String := "APIエラー: " ++ toString status

/-- The JSON.stringify body of the fetch request. -/
def geminiRequestBody (prompt : String) : Json :=
  Json.obj [("contents", Json.arr [Json.obj [("parts",
    Json.arr [Json.obj [("text", Json.str prompt)]])]])]

/-- One issued fetch request: the endpoint, the x-goog-api-key header value,
and the JSON body. -/
structure GeminiRequest where
  url : String
  apiKeyHeader : String
  body : Json
deriving Repr

/-- Observable effects of one handleGenerate invocation: the fetch requests
issued and the alerts shown, each alert a (title, message) pair. -/
structure GenTrace where
  requests : List GeminiRequest
  alerts : List (String × String)
deriving Repr

/-- The try block of handleGenerate from the fetch call onward: either the
text value to store via setGeneratedText, or the thrown value that the catch
block receives. On an ok response the unguarded candidates access can throw
a TypeError (an Error object) on a null body. On a non-ok response the body
that fails to parse is replaced by the empty object, the unguarded error
access can likewise throw on a null body, and otherwise the thrown Error
message is errorData.error?.message when truthy, else the status-code
message. -/
def generateTry (net : FetchResult) : Except JsThrow Json :=
  match net with
  | .reject e => .error e
  | .response ok status body =>
    if ok then
      match body with
      | .ok data =>
        match extractCandidatesText data with
        | .error m => .error (.errorObj m)
        | .ok ext => .ok (jsOr ext (.str fallbackGeneratedText))
      | .error e => .error e
    else
      let errorData := match body with
        | .ok j => j
        | .error _ => Json.obj []
      match extractErrorMessage errorData with
      | .error m => .error (.errorObj m)
      | .ok ext => .error (.errorObj
          (jsOr ext (.str (apiErrorMessage status))).jsToString)

/-- handleGenerate from gemini.tsx: validation of prompt and API key (JS
falsiness of the trimmed string is emptiness), then the fetch with
try/catch/finally. Returns the final state and the effect trace. -/
def handleGenerate (st : GeminiState) (net : FetchResult) : GeminiState × GenTrace :=
  if jsTrim st.prompt = "" then
    (st, { requests := [], alerts := [(errorAlertTitle, promptRequiredMessage)] })
  else if jsTrim st.apiKey = "" then
    (st, { requests := [], alerts := [(errorAlertTitle, apiKeyRequiredMessage)] })
  else
    let st1 := { st with isGenerating := true, generatedText := Json.str "" }
    let req : GeminiRequest :=
      { url := GEMINI_API_URL, apiKeyHeader := st.apiKey, body := geminiRequestBody st.prompt }
    match generateTry net with
    | .ok text =>
      ({ st1 with generatedText := text, isGenerating := false },
       { requests := [req], alerts := [] })
    | .error e =>
      let errorMessage := match e with
        | .errorObj m => m
        | .nonError => unknownErrorMessage
      ({ st1 with isGenerating := false },
       { requests := [req], alerts := [(errorAlertTitle, errorMessage)] })

/-- Whether a fetch outcome is a failing attempt: the fetch rejected, the
response was non-ok, or the success-path JSON parse rejected. -/
def FetchResult.isFailure : FetchResult → Bool
  | .reject _ => true
  | .response ok _ body =>
    !ok || (match body with | .error _ => true | .ok _ => false)

def noSpeakTextMessage : String := "読み上げるテキストがありません"

/-- One call into the platform speech engine (Speech.speak) with the
per-utterance options the screens pass. -/
structure SpeakCall where
  text : String
  language : String
  pitch : ℚ
  rate : ℚ
  voice : Option String
deriving Repr

/-- handleSpeak on the Gemini screen: alerts shown and Speech.speak calls
made. generatedText is a JavaScript value; calling trim on a non-string
throws, modelled as none. -/
def geminiHandleSpeak (st : GeminiState) : Option (List (String × String) × List SpeakCall) :=
  match st.generatedText with
  | .str s =>
    if jsTrim s = "" then
      some ([(errorAlertTitle, noSpeakTextMessage)], [])
    else
      some ([], [{ text := s, language := "ja-JP", pitch := 1.0, rate := 1.0, voice := none }])
  | _ => none

/-- The checkSpeaking polling callback of GeminiScreen: copies the value
polled from Speech.isSpeakingAsync into the isSpeaking state. -/
def geminiCheckSpeaking (st : GeminiState) (speaking : Bool) : GeminiState :=
  { st with isSpeaking := speaking }

/-- The setInterval period of the GeminiScreen polling effect. -/
def geminiSpeechPollIntervalMs : Nat := 500

/-! ## speech.tsx -/

/-- React state of SpeechScreen (the fields the claims touch). Pitch and
rate are JavaScript numbers, modelled as rationals; the in-range claim below
depends only on Math.max and Math.min returning one of their arguments, so
it is insensitive to floating-point rounding of the 0.1 steps. -/
structure SpeechState where
  text : String
  isSpeaking : Bool
  language : String
  pitch : ℚ
  rate : ℚ
  selectedVoice : Option String
deriving Repr

/-- The useState initial values of SpeechScreen. -/
def initialSpeechState : SpeechState :=
  { text := "こんにちは、これは音声合成のテストです。"
    isSpeaking := false
    language := "ja-JP"
    pitch := 1.0
    rate := 1.0
    selectedVoice := none }

def speechTextRequiredMessage : String := "テキストを入力してください"

/-- handleSpeak on the SpeechScreen: the alerts shown and the Speech.speak
calls made with the current language, pitch, rate and selected voice. -/
def speechHandleSpeak (st : SpeechState) : List (String × String) × List SpeakCall :=
  if jsTrim st.text = "" then
    ([(errorAlertTitle, speechTextRequiredMessage)], [])
  else
    ([], [{ text := st.text, language := st.language, pitch := st.pitch,
            rate := st.rate, voice := st.selectedVoice }])

/-- The checkSpeaking polling callback of SpeechScreen: copies the value
polled from Speech.isSpeakingAsync into the isSpeaking state. -/
def speechCheckSpeaking (st : SpeechState) (speaking : Bool) : SpeechState :=
  { st with isSpeaking := speaking }

/-- The setInterval period of the SpeechScreen polling effect. -/
def speechPollIntervalMs : Nat := 500

/-- The onPress handler of the pitch and rate decrement buttons:
Math.max(0.5, value - 0.1). -/
def adjustDown (x : ℚ) : ℚ := max 0.5 (x - 0.1)

/-- The onPress handler of the pitch and rate increment buttons:
Math.min(2.0, value + 0.1). -/
def adjustUp (x : ℚ) : ℚ := min 2.0 (x + 0.1)

/-- One press on the minus or plus button of a pitch or rate setting. -/
inductive AdjustPress where
  | down : AdjustPress
  | up : AdjustPress
deriving Repr, DecidableEq

def applyAdjust (x : ℚ) : AdjustPress → ℚ
  | .down => adjustDown x
  | .up => adjustUp x

/-- The value of a pitch or rate setting after a sequence of button presses
starting from x0. -/
def runAdjust (x0 : ℚ) (presses : List AdjustPress) : ℚ :=
  presses.foldl applyAdjust x0

/-! ## index.tsx -/

/-- The sender tag of a voice message. -/
inductive Sender where
  | user : Sender
  | bot : Sender
deriving Repr, DecidableEq

/-- The VoiceMessage record of index.tsx. -/
structure VoiceMessage where
  id : String
  uri : String
  «from» : Sender
  durationSec : Nat
deriving Repr, DecidableEq

/-- The environment of one stop of a recording: the recorder uri after stop
(null when unavailable), the recordingTime counter in seconds, and the
Date.now() clock readings at the stop itself and inside the later
setTimeout callback. -/
structure StopEvent where
  uri : Option String
  recordingTime : Nat
  nowAtStop : Nat
  nowAtTimeout : Nat
deriving Repr, DecidableEq

/-- The setTimeout delay before the bot echo message is appended. -/
def botEchoDelayMs : Nat := 1000

/-- The userMessage record built in the stop branch of handleRecord. -/
def userMessageOf (uri : String) (duration : Nat) (now : Nat) : VoiceMessage :=
  { id := toString now, uri := uri, «from» := .user, durationSec := duration }

/-- The botMessage record built inside the setTimeout callback; its id is
Date.now() + 1 at callback time, and it reuses the captured uri and
duration. -/
def botMessageOf (uri : String) (duration : Nat) (now : Nat) : VoiceMessage :=
  { id := toString (now + 1), uri := uri, «from» := .bot, durationSec := duration }

/-- The stop branch of handleRecord: when a uri is available, append the
user message (setMessages prev ++ [userMessage]) and, in the delayed
callback, the bot message. Returns the message list right after the user
append and after the delayed bot append. The duration is
recordingTime || 1, so a zero counter becomes 1. -/
def handleRecordStop (messages : List VoiceMessage) (ev : StopEvent) :
    List VoiceMessage × List VoiceMessage :=
  match ev.uri with
  | none => (messages, messages)
  | some uri =>
    let duration := if ev.recordingTime = 0 then 1 else ev.recordingTime
    let userMessage := userMessageOf uri duration ev.nowAtStop
    let afterUser := messages ++ [userMessage]
    let botMessage := botMessageOf uri duration ev.nowAtTimeout
    (afterUser, afterUser ++ [botMessage])

/-- The audio player state a VoiceMessageItem observes: the playing flag of
useAudioPlayerStatus and the playback position. -/
structure PlayerState where
  playing : Bool
  positionSec : ℚ
deriving Repr, DecidableEq

/-- handlePlay of a VoiceMessageItem: pause when playing, otherwise seek to
position 0 and play. -/
def handlePlay (p : PlayerState) : PlayerState :=
  if p.playing then
    { p with playing := false }
  else
    { p with playing := true, positionSec := 0 }

/-! ## Concrete data used by witnesses and counterexamples -/

/-- The initial Gemini state with an API key typed in, so that validation
passes (the default prompt is nonempty). -/
def readyGeminiState : GeminiState := { initialGeminiState with apiKey := "key" }

/-- A success body whose extracted text field is present: candidates[0]
.content.parts[0].text = "hi". -/
def sampleOkBody : Json :=
  Json.obj [("candidates", Json.arr [Json.obj [("content", Json.obj [("parts",
    Json.arr [Json.obj [("text", Json.str "hi")]])])]])]

/-- A success body whose extracted text field is present but empty. -/
def emptyTextBody : Json :=
  Json.obj [("candidates", Json.arr [Json.obj [("content", Json.obj [("parts",
    Json.arr [Json.obj [("text", Json.str "")]])])]])]

/-- C1: for every state and network outcome, if the prompt or the API key is
empty or whitespace-only after trimming, handleGenerate issues no fetch
request and shows exactly one user-facing error alert. -/
theorem handleGenerate_blocks_on_missing_input (st : GeminiState) (net : FetchResult)
    (h : jsTrim st.prompt = "" ∨ jsTrim st.apiKey = "") :
    (handleGenerate st net).2.requests = [] ∧
    ∃ msg, (handleGenerate st net).2.alerts = [(errorAlertTitle, msg)] := by
  by_cases hp : jsTrim st.prompt = ""
  · exact ⟨by simp [handleGenerate, hp], promptRequiredMessage, by simp [handleGenerate, hp]⟩
  · rcases h with h | h
    · exact absurd h hp
    · exact ⟨by simp [handleGenerate, hp, h], apiKeyRequiredMessage,
        by simp [handleGenerate, hp, h]⟩

/-- C1 witness: at the initial state the default prompt is nonempty but the
API key is empty, so no request is issued and an alert is shown. -/
theorem handleGenerate_blocks_on_missing_input_witness :
    (handleGenerate initialGeminiState (FetchResult.reject JsThrow.nonError)).2.requests = [] ∧
    ∃ msg, (handleGenerate initialGeminiState (FetchResult.reject JsThrow.nonError)).2.alerts
      = [(errorAlertTitle, msg)] :=
  handleGenerate_blocks_on_missing_input initialGeminiState (FetchResult.reject JsThrow.nonError)
    (Or.inr (by decide))

/-- Helper: the non-ok branch of the try block always throws, whatever the
body holds, so the catch path is taken. -/
theorem generateTry_non_ok_error (status : Nat) (body : Except JsThrow Json) :
    ∃ e, generateTry (FetchResult.response false status body) = Except.error e := by
  cases body with
  | ok j =>
    cases hex : extractErrorMessage j with
    | error m => exact ⟨JsThrow.errorObj m, by simp [generateTry, hex]⟩
    | ok ext =>
      exact ⟨JsThrow.errorObj ((jsOr ext (Json.str (apiErrorMessage status))).jsToString),
        by simp [generateTry, hex]⟩
  | error e =>
    cases hex : extractErrorMessage (Json.obj []) with
    | error m => exact ⟨JsThrow.errorObj m, by simp [generateTry, hex]⟩
    | ok ext =>
      exact ⟨JsThrow.errorObj ((jsOr ext (Json.str (apiErrorMessage status))).jsToString),
        by simp [generateTry, hex]⟩

/-- C2 counterexample: on an ok response whose candidates[0].content.parts[0]
.text field is present but is the empty string, the code stores the fixed
fallback string, not the extracted field, because the JS || also rejects a
present-but-falsy value. -/
theorem handleGenerate_success_text_counterexample :
    extractCandidatesText emptyTextBody = Except.ok (some (Json.str "")) ∧
    (handleGenerate readyGeminiState
        (FetchResult.response true 200 (Except.ok emptyTextBody))).1.generatedText
      = Json.str fallbackGeneratedText ∧
    Json.str fallbackGeneratedText ≠ Json.str "" :=
  ⟨rfl, rfl, by intro h; injection h with h2; exact absurd h2 (by decide)⟩

/-- C2 (amended): on an ok response with a parsed body, the stored generated
text is the extracted field candidates[0].content.parts[0].text whenever the
chain completes with a truthy value (in particular any nonempty string); it
is the fixed fallback string whenever the chain completes with the field
absent or falsy (in particular the empty string); and on a body that parses
to JSON null the unguarded candidates access throws, the thrown TypeError
message is alerted, and the generated text stays empty. -/
theorem handleGenerate_success_text (st : GeminiState) (status : Nat) (data : Json)
    (hp : jsTrim st.prompt ≠ "") (hk : jsTrim st.apiKey ≠ "") :
    (∀ v, extractCandidatesText data = Except.ok (some v) → v.truthy = true →
      (handleGenerate st (FetchResult.response true status (Except.ok data))).1.generatedText
        = v) ∧
    (∀ ext, extractCandidatesText data = Except.ok ext →
      (∀ v, ext = some v → v.truthy = false) →
      (handleGenerate st (FetchResult.response true status (Except.ok data))).1.generatedText
        = Json.str fallbackGeneratedText) ∧
    (∀ m, extractCandidatesText data = Except.error m →
      (handleGenerate st (FetchResult.response true status (Except.ok data))).1.generatedText
        = Json.str "" ∧
      (handleGenerate st (FetchResult.response true status (Except.ok data))).2.alerts
        = [(errorAlertTitle, m)]) := by
  refine ⟨?_, ?_, ?_⟩
  · intro v hv htr
    simp [handleGenerate, hp, hk, generateTry, jsOr, hv, htr]
  · intro ext hext hfal
    cases ext with
    | none => simp [handleGenerate, hp, hk, generateTry, jsOr, hext]
    | some v => simp [handleGenerate, hp, hk, generateTry, jsOr, hext, hfal v rfl]
  · intro m hm
    exact ⟨by simp [handleGenerate, hp, hk, generateTry, hm],
      by simp [handleGenerate, hp, hk, generateTry, hm]⟩

/-- C2 witness: a body carrying the nonempty text "hi" renders "hi". -/
theorem handleGenerate_success_text_witness :
    (handleGenerate readyGeminiState
        (FetchResult.response true 200 (Except.ok sampleOkBody))).1.generatedText
      = Json.str "hi" :=
  (handleGenerate_success_text readyGeminiState 200 sampleOkBody
    (by decide) (by decide)).1 (Json.str "hi") rfl rfl

/-- C10: after a validated attempt the in-progress flag ends false on every
path, and on every failing path (fetch rejected, non-ok response, or a
success body that fails to parse) the stored generated text ends empty,
having been cleared before the request and never reassigned. -/
theorem handleGenerate_failure_resets (st : GeminiState) (net : FetchResult)
    (hp : jsTrim st.prompt ≠ "") (hk : jsTrim st.apiKey ≠ "") :
    (handleGenerate st net).1.isGenerating = false ∧
    (net.isFailure = true → (handleGenerate st net).1.generatedText = Json.str "") := by
  constructor
  · cases hg : generateTry net <;> simp [handleGenerate, hp, hk, hg]
  · intro hf
    cases net with
    | reject e => simp [handleGenerate, hp, hk, generateTry]
    | response ok status body =>
      cases ok with
      | false =>
        obtain ⟨e, he⟩ := generateTry_non_ok_error status body
        simp [handleGenerate, hp, hk, he]
      | true =>
        cases body with
        | error e => simp [handleGenerate, hp, hk, generateTry]
        | ok data => simp [FetchResult.isFailure] at hf

/-- C10 witness: a rejected fetch at a validated state leaves the flag false
and the text empty. -/
theorem handleGenerate_failure_resets_witness :
    (handleGenerate readyGeminiState
        (FetchResult.reject (JsThrow.errorObj "network down"))).1.isGenerating = false ∧
    (handleGenerate readyGeminiState
        (FetchResult.reject (JsThrow.errorObj "network down"))).1.generatedText
      = Json.str "" := by
  have h := handleGenerate_failure_resets readyGeminiState
    (FetchResult.reject (JsThrow.errorObj "network down")) (by decide) (by decide)
  exact ⟨h.1, h.2 rfl⟩

/-- C4: when a recording is stopped with a clip uri available, the stop path
appends exactly one user message, and the delayed callback (scheduled at the
fixed 1000 ms delay) appends exactly one bot message reusing the same uri
and the same duration; nothing else is added. -/
theorem handleRecordStop_appends_pair (messages : List VoiceMessage) (ev : StopEvent)
    (uri : String) (h : ev.uri = some uri) :
    ∃ u b, (handleRecordStop messages ev).1 = messages ++ [u] ∧
      (handleRecordStop messages ev).2 = messages ++ [u, b] ∧
      u.«from» = Sender.user ∧ b.«from» = Sender.bot ∧
      u.uri = uri ∧ b.uri = u.uri ∧ b.durationSec = u.durationSec ∧
      botEchoDelayMs = 1000 := by
  refine ⟨userMessageOf uri (if ev.recordingTime = 0 then 1 else ev.recordingTime) ev.nowAtStop,
    botMessageOf uri (if ev.recordingTime = 0 then 1 else ev.recordingTime) ev.nowAtTimeout,
    ?_, ?_, rfl, rfl, rfl, rfl, rfl, rfl⟩
  · simp [handleRecordStop, h]
  · simp [handleRecordStop, h]

/-- C4 witness: stopping over an empty list with a concrete clip yields the
user and bot pair. -/
theorem handleRecordStop_appends_pair_witness :
    ∃ u b, (handleRecordStop []
        { uri := some "file://clip", recordingTime := 3, nowAtStop := 100,
          nowAtTimeout := 1100 }).1 = [] ++ [u] ∧
      (handleRecordStop []
        { uri := some "file://clip", recordingTime := 3, nowAtStop := 100,
          nowAtTimeout := 1100 }).2 = [] ++ [u, b] ∧
      u.«from» = Sender.user ∧ b.«from» = Sender.bot ∧
      u.uri = "file://clip" ∧ b.uri = u.uri ∧ b.durationSec = u.durationSec ∧
      botEchoDelayMs = 1000 :=
  handleRecordStop_appends_pair []
    { uri := some "file://clip", recordingTime := 3, nowAtStop := 100, nowAtTimeout := 1100 }
    "file://clip" rfl

/-- C5: pressing the playback control of a message pauses it when the player
reports playing, starts playback at position 0 when it does not, and two
consecutive presses return the playing flag to where it started. -/
theorem handlePlay_toggles (p : PlayerState) :
    (handlePlay p).playing = !p.playing ∧
    (p.playing = false → (handlePlay p).positionSec = 0) ∧
    (handlePlay (handlePlay p)).playing = p.playing := by
  rcases p with ⟨playing, pos⟩
  cases playing <;> simp [handlePlay]

/-- C5 witness: pressing on a paused player at position 5 starts it at 0,
and a second press pauses again. -/
theorem handlePlay_toggles_witness :
    (handlePlay { playing := false, positionSec := 5 }).playing = !false ∧
    (handlePlay { playing := false, positionSec := 5 }).positionSec = 0 ∧
    (handlePlay (handlePlay { playing := false, positionSec := 5 })).playing = false := by
  have h := handlePlay_toggles { playing := false, positionSec := 5 }
  exact ⟨h.1, h.2.1 rfl, h.2.2⟩

/-- C6: both list updates of the stop path are append-only: the previous
list survives unchanged at the front of each updated list, so no existing
entry (its id, uri, sender tag or duration) is modified or removed. -/
theorem handleRecordStop_append_only (messages : List VoiceMessage) (ev : StopEvent) :
    (handleRecordStop messages ev).1.take messages.length = messages ∧
    (handleRecordStop messages ev).2.take (handleRecordStop messages ev).1.length
      = (handleRecordStop messages ev).1 := by
  cases hev : ev.uri with
  | none => simp [handleRecordStop, hev]
  | some uri =>
    have e1 : (handleRecordStop messages ev).1
        = messages ++ [userMessageOf uri
            (if ev.recordingTime = 0 then 1 else ev.recordingTime) ev.nowAtStop] := by
      simp [handleRecordStop, hev]
    have e2 : (handleRecordStop messages ev).2
        = (messages ++ [userMessageOf uri
            (if ev.recordingTime = 0 then 1 else ev.recordingTime) ev.nowAtStop])
          ++ [botMessageOf uri
            (if ev.recordingTime = 0 then 1 else ev.recordingTime) ev.nowAtTimeout] := by
      simp [handleRecordStop, hev]
    rw [e1, e2, List.take_left, List.take_left]
    exact ⟨rfl, rfl⟩

/-- C7: on both screens, a text that trims to empty blocks speech: exactly
one error alert and no call into the speech engine. -/
theorem handleSpeak_blocks_on_empty_text (sst : SpeechState) (gst : GeminiState) (s : String)
    (hs : jsTrim sst.text = "") (hg : gst.generatedText = Json.str s)
    (hgs : jsTrim s = "") :
    speechHandleSpeak sst = ([(errorAlertTitle, speechTextRequiredMessage)], []) ∧
    geminiHandleSpeak gst = some ([(errorAlertTitle, noSpeakTextMessage)], []) := by
  constructor
  · simp [speechHandleSpeak, hs]
  · simp [geminiHandleSpeak, hg, hgs]

/-- C7 witness: a whitespace-only speech text and the empty initial
generated text are both blocked with an alert. -/
theorem handleSpeak_blocks_on_empty_text_witness :
    speechHandleSpeak { initialSpeechState with text := " " }
      = ([(errorAlertTitle, speechTextRequiredMessage)], []) ∧
    geminiHandleSpeak initialGeminiState
      = some ([(errorAlertTitle, noSpeakTextMessage)], []) :=
  handleSpeak_blocks_on_empty_text { initialSpeechState with text := " " }
    initialGeminiState "" (by decide) rfl (by decide)

/-- C8: both screens poll the speech engine every 500 ms, twice per second,
and the polling callback copies the polled flag into the isSpeaking state. -/
theorem checkSpeaking_polls_and_copies (sst : SpeechState) (gst : GeminiState)
    (speaking : Bool) :
    speechPollIntervalMs = 500 ∧ geminiSpeechPollIntervalMs = 500 ∧
    2 * speechPollIntervalMs = 1000 ∧ 2 * geminiSpeechPollIntervalMs = 1000 ∧
    (speechCheckSpeaking sst speaking).isSpeaking = speaking ∧
    (geminiCheckSpeaking gst speaking).isSpeaking = speaking :=
  ⟨rfl, rfl, rfl, rfl, rfl, rfl⟩

/-- C9: starting from the initial value 1.0, no sequence of decrement and
increment presses (each replacing the value with max(0.5, value - 0.1) or
min(2.0, value + 0.1)) drives a pitch or rate value outside [0.5, 2.0]. -/
theorem adjust_buttons_stay_in_range (presses : List AdjustPress) :
    (0.5 : ℚ) ≤ runAdjust 1.0 presses ∧ runAdjust 1.0 presses ≤ 2.0 := by
  have key : ∀ (ps : List AdjustPress) (x0 : ℚ), 0.5 ≤ x0 → x0 ≤ 2.0 →
      0.5 ≤ runAdjust x0 ps ∧ runAdjust x0 ps ≤ 2.0 := by
    intro ps
    induction ps with
    | nil => intro x0 h1 h2; exact ⟨h1, h2⟩
    | cons p rest ih =>
      intro x0 h1 h2
      have hstep : (0.5 : ℚ) ≤ applyAdjust x0 p ∧ applyAdjust x0 p ≤ 2.0 := by
        cases p with
        | down =>
          simp only [applyAdjust, adjustDown]
          constructor
          · exact le_max_left _ _
          · apply max_le (by norm_num)
            linarith
        | up =>
          simp only [applyAdjust, adjustUp]
          constructor
          · apply le_min (by norm_num)
            linarith
          · exact min_le_left _ _
      have hrw : runAdjust x0 (p :: rest) = runAdjust (applyAdjust x0 p) rest := rfl
      rw [hrw]
      exact ih (applyAdjust x0 p) hstep.1 hstep.2
  exact key presses 1.0 (by norm_num) (by norm_num)
